import Mathlib

/-!
Shallow embedding of the streaming OSM-to-GeoJSON compiler
(`OSMEngine.osm_to_geojson` in `st_downloader/engines/osm.py`).

The Python function makes one forward pass over the XML event stream.  We
model the stream as a list of primitive elements (node / way / relation),
each carrying the ordered list of its child events (`tag`, `nd`, `member`)
exactly as the scratch buffers would have accumulated them between the
primitive's start and end events.  Python dicts are modelled as association
lists with overwrite-in-place update (Python dicts keep the original key
position on overwrite); `float(attr)` is modelled by an `Option Rat` field
holding the parse result (`none` = unparsable, which raises in Python).
-/

/-- A coordinate pair `[lon, lat]` as stored by `nodes[n_id] = [lon, lat]`. -/
abbrev Coord := Rat × Rat

/-- A Python `dict[str, str]` of tags, as an association list in insertion order. -/
abbrev TagMap := List (String × String)

/-- Python dict update `m[k] = v`: overwrite the value in place when the key
exists (keeping its position), otherwise append the new pair at the end. -/
def dictSet {α : Type} (m : List (String × α)) (k : String) (v : α) :
    List (String × α) :=
  match m with
  | [] => [(k, v)]
  | (k', v') :: rest =>
      if k' = k then (k', v) :: rest else (k', v') :: dictSet rest k v

/-- Python dict lookup `m.get(k)` (`none` models both `None` and `k not in m`). -/
def dictGet? {α : Type} (m : List (String × α)) (k : String) : Option α :=
  match m with
  | [] => none
  | (k', v) :: rest => if k' = k then some v else dictGet? rest k

/-- A child event of a primitive element: `<tag k v>`, `<nd ref>`, or
`<member type ref role>`. -/
inductive OsmChild where
  | tagC (k v : String)
  | ndC (ref : String)
  | memberC (mtype ref role : String)
deriving DecidableEq, Repr

/-- The scratch tag map `current_tags` at a primitive's end event: each `tag`
child executes `current_tags[elem.get("k")] = elem.get("v")`. -/
def tagsOf (cs : List OsmChild) : TagMap :=
  cs.foldl (fun m c => match c with | .tagC k v => dictSet m k v | _ => m) []

/-- The scratch ref list `current_refs` at a way's end event (ordered). -/
def ndsOf (cs : List OsmChild) : List String :=
  cs.filterMap (fun c => match c with | .ndC r => some r | _ => none)

/-- A relation member record `{"type": ..., "ref": ..., "role": ...}`. -/
structure OsmMember where
  mtype : String
  ref : String
  role : String
deriving DecidableEq, Repr

/-- The scratch member list `current_members` at a relation's end event. -/
def membersOf (cs : List OsmChild) : List OsmMember :=
  cs.filterMap (fun c =>
    match c with | .memberC t r ro => some ⟨t, r, ro⟩ | _ => none)

/-- A `<node>` element: its id attribute, the results of
`float(elem.get("lon"))` / `float(elem.get("lat"))` (`none` = the call
raises), and its child events. -/
structure OsmNodeElem where
  id : String
  lon : Option Rat
  lat : Option Rat
  children : List OsmChild
deriving DecidableEq, Repr

/-- A `<way>` element: its id attribute and its child events. -/
structure OsmWayElem where
  id : String
  children : List OsmChild
deriving DecidableEq, Repr

/-- A `<relation>` element: its id attribute and its child events. -/
structure OsmRelElem where
  id : String
  children : List OsmChild
deriving DecidableEq, Repr

/-- A top-level primitive of the document, in stream order. -/
inductive OsmElem where
  | node : OsmNodeElem → OsmElem
  | way : OsmWayElem → OsmElem
  | rel : OsmRelElem → OsmElem
deriving DecidableEq, Repr

/-- A GeoJSON geometry as built by the compiler. -/
inductive Geom where
  | point (c : Coord)
  | lineString (cs : List Coord)
  | polygon (rings : List (List Coord))
  | multiPolygon (polys : List (List (List Coord)))
deriving DecidableEq, Repr

/-- One GeoJSON feature (`"type": "Feature"` is implicit). -/
structure GeoFeature where
  geometry : Geom
  properties : TagMap
deriving DecidableEq, Repr

/-- A way registry entry `ways[w_id] = {"coords": ..., "tags": ...}`. -/
structure WayEntry where
  coords : List Coord
  tags : TagMap
deriving DecidableEq, Repr

/-- The compiler's mutable state: the two forward-reference registries and the
append-only feature list. -/
structure CState where
  nodes : List (String × Coord)
  ways : List (String × WayEntry)
  features : List GeoFeature
deriving DecidableEq, Repr

/-- Feature properties `{**current_tags, "osm_id": id}`. -/
def propsWithId (tags : TagMap) (id : String) : TagMap :=
  dictSet tags "osm_id" id

/-- Member-feature properties
`{**current_tags, "rel_role": role, "osm_id": r_id}`. -/
def memberProps (tags : TagMap) (role id : String) : TagMap :=
  dictSet (dictSet tags "rel_role" role) "osm_id" id

/-- Node finalization after a successful coordinate parse: store the
coordinate in the registry; a non-empty scratch tag map also emits a Point
feature. -/
def finalizeNode (st : CState) (id : String) (tags : TagMap) (lon lat : Rat) :
    CState :=
  if tags.isEmpty then
    { st with nodes := dictSet st.nodes id (lon, lat) }
  else
    { st with nodes := dictSet st.nodes id (lon, lat),
              features := st.features ++
                [⟨Geom.point (lon, lat), propsWithId tags id⟩] }

/-- Node end event: `lon, lat = float(elem.get("lon")), float(elem.get("lat"))`
raises (aborting the pass) when either attribute is unparsable; otherwise the
node is finalized. -/
def processNode (st : CState) (n : OsmNodeElem) : Except String CState :=
  match n.lon with
  | none => .error "could not convert string to float"
  | some lon =>
    match n.lat with
    | none => .error "could not convert string to float"
    | some lat => .ok (finalizeNode st n.id (tagsOf n.children) lon lat)

/-- `[nodes[r] for r in current_refs if r in nodes]`: resolve the refs against
the node registry, dropping unresolved refs, keeping order. -/
def resolveRefs (nodes : List (String × Coord)) (refs : List String) :
    List Coord :=
  refs.filterMap (fun r => dictGet? nodes r)

/-- `coords[0] == coords[-1] if len(coords) > 1 else False`. -/
def isPolygonCheck (coords : List Coord) : Bool :=
  if coords.length > 1 then decide (coords.head? = coords.getLast?) else false

/-- The geometry of a tagged way's feature: Polygon with coords wrapped as a
single ring when the closure check passes, otherwise LineString. -/
def wayGeom (coords : List Coord) : Geom :=
  if isPolygonCheck coords then Geom.polygon [coords]
  else Geom.lineString coords

/-- Way end event: resolve refs, store `{coords, tags}` in the way registry
unconditionally, and emit a feature when the scratch tag map is non-empty. -/
def processWay (st : CState) (w : OsmWayElem) : CState :=
  let tags := tagsOf w.children
  let coords := resolveRefs st.nodes (ndsOf w.children)
  let ways' := dictSet st.ways w.id ⟨coords, tags⟩
  if tags.isEmpty then { st with ways := ways' }
  else
    { st with ways := ways',
              features := st.features ++
                [⟨wayGeom coords, propsWithId tags w.id⟩] }

/-- `[ways[m["ref"]]["coords"] for m in current_members
     if m["role"] == "outer" and m["ref"] in ways]`. -/
def outerRings (ways : List (String × WayEntry)) (members : List OsmMember) :
    List (List Coord) :=
  members.filterMap (fun m =>
    if m.role = "outer" then (dictGet? ways m.ref).map (fun e => e.coords)
    else none)

/-- Same as `outerRings` for `role == "inner"`. -/
def innerRings (ways : List (String × WayEntry)) (members : List OsmMember) :
    List (List Coord) :=
  members.filterMap (fun m =>
    if m.role = "inner" then (dictGet? ways m.ref).map (fun e => e.coords)
    else none)

/-- The feature (if any) a single member of a route/restriction relation
yields: node members resolving in the node registry give a Point, way members
resolving in the way registry give a LineString, everything else nothing. -/
def memberFeature (nodes : List (String × Coord))
    (ways : List (String × WayEntry)) (tags : TagMap) (rid : String)
    (m : OsmMember) : Option GeoFeature :=
  if m.mtype = "node" then
    (dictGet? nodes m.ref).map
      (fun c => ⟨Geom.point c, memberProps tags m.role rid⟩)
  else if m.mtype = "way" then
    (dictGet? ways m.ref).map
      (fun e => ⟨Geom.lineString e.coords, memberProps tags m.role rid⟩)
  else none

/-- Relation end event: multipolygon/boundary relations emit one MultiPolygon
(when an outer ring resolves) whose single ring set is `outer ++ inner`;
route/restriction relations emit one feature per resolvable member; any other
type emits nothing. -/
def processRel (st : CState) (r : OsmRelElem) : CState :=
  let tags := tagsOf r.children
  let members := membersOf r.children
  let rtype := dictGet? tags "type"
  if rtype = some "multipolygon" ∨ rtype = some "boundary" then
    let outer := outerRings st.ways members
    let inner := innerRings st.ways members
    if outer.isEmpty then st
    else
      { st with features := st.features ++
          [⟨Geom.multiPolygon [outer ++ inner], propsWithId tags r.id⟩] }
  else if rtype = some "route" ∨ rtype = some "restriction" then
    { st with features := st.features ++
        members.filterMap (memberFeature st.nodes st.ways tags r.id) }
  else st

/-- One step of the forward pass: dispatch on the primitive's tag. -/
def stepElem (st : CState) : OsmElem → Except String CState
  | .node n => processNode st n
  | .way w => .ok (processWay st w)
  | .rel r => .ok (processRel st r)

/-- The state at the start of a pass: empty registries, no features. -/
def initState : CState := ⟨[], [], []⟩

/-- The remaining forward pass from a given state: process each element in
order, aborting at the first raised error. -/
def runElems (st : CState) : List OsmElem → Except String CState
  | [] => .ok st
  | e :: rest =>
    match stepElem st e with
    | .ok st' => runElems st' rest
    | .error msg => .error msg

/-- The whole forward pass over the document from the initial empty state. -/
def compile (doc : List OsmElem) : Except String CState :=
  runElems initState doc

/-- Whether an `Except` value is a success. -/
def exceptOk {ε α : Type} : Except ε α → Bool
  | .ok _ => true
  | .error _ => false

/-- The features of a successful compilation (empty list on failure; used only
on documents known to compile). -/
def compiledFeatures (doc : List OsmElem) : List GeoFeature :=
  match compile doc with
  | .ok st => st.features
  | .error _ => []

/-- An element never aborts the pass unless it is a node with an unparsable
coordinate: this predicate says the element is safe. -/
def nodeParses : OsmElem → Prop
  | .node n => n.lon.isSome = true ∧ n.lat.isSome = true
  | .way _ => True
  | .rel _ => True

instance instDecidableNodeParses (e : OsmElem) : Decidable (nodeParses e) :=
  match e with
  | .node n => inferInstanceAs (Decidable (n.lon.isSome = true ∧ n.lat.isSome = true))
  | .way _ => inferInstanceAs (Decidable True)
  | .rel _ => inferInstanceAs (Decidable True)

theorem dictGet?_dictSet_self {α : Type} (m : List (String × α)) (k : String)
    (v : α) : dictGet? (dictSet m k v) k = some v := by
  induction m with
  | nil => simp [dictSet, dictGet?]
  | cons p rest ih =>
    obtain ⟨k', v'⟩ := p
    by_cases h : k' = k <;> simp [dictSet, dictGet?, h, ih]


theorem dictGet?_dictSet_ne {α : Type} (m : List (String × α)) (k k' : String)
    (v : α) (h : k' ≠ k) : dictGet? (dictSet m k v) k' = dictGet? m k' := by
  induction m with
  | nil => simp [dictSet, dictGet?, Ne.symm h]
  | cons p rest ih =>
    obtain ⟨k₀, v₀⟩ := p
    by_cases h0 : k₀ = k
    · subst h0
      simp [dictSet, dictGet?, Ne.symm h]
    · simp [dictSet, dictGet?, h0, ih]

theorem exceptOk_ok {ε α : Type} (a : α) :
    exceptOk (Except.ok a : Except ε α) = true := rfl

theorem exceptOk_error {ε α : Type} (e : ε) :
    exceptOk (Except.error e : Except ε α) = false := rfl

theorem isPolygonCheck_eq_true_iff (coords : List Coord) :
    isPolygonCheck coords = true ↔
      (coords.length > 1 ∧ coords.head? = coords.getLast?) := by
  unfold isPolygonCheck
  by_cases h : coords.length > 1 <;> simp [h]

theorem wayGeom_eq_ite (coords : List Coord) :
    wayGeom coords =
      if coords.length > 1 ∧ coords.head? = coords.getLast?
      then Geom.polygon [coords] else Geom.lineString coords := by
  unfold wayGeom
  by_cases hp : coords.length > 1 ∧ coords.head? = coords.getLast?
  · rw [if_pos ((isPolygonCheck_eq_true_iff coords).mpr hp), if_pos hp]
  · rw [if_neg (fun hc => hp ((isPolygonCheck_eq_true_iff coords).mp hc)),
        if_neg hp]

theorem filterMap_eq_filter_filterMap {α β : Type} (f : α → Option β)
    (l : List α) :
    l.filterMap f = (l.filter (fun a => (f a).isSome)).filterMap f := by
  induction l with
  | nil => rfl
  | cons a l ih =>
    cases hf : f a <;>
      simp [List.filterMap_cons, List.filter_cons, hf, ih]

theorem resolveRefs_length_all_some (nodes : List (String × Coord)) :
    ∀ refs : List String,
      (∀ r ∈ refs, (dictGet? nodes r).isSome = true) →
      (resolveRefs nodes refs).length = refs.length := by
  intro refs
  induction refs with
  | nil => intro _; rfl
  | cons a l ih =>
    intro h
    have ha := h a (by simp)
    cases hf : dictGet? nodes a with
    | none => rw [hf] at ha; simp at ha
    | some c =>
      have hl := ih (fun r hr => h r (by simp [hr]))
      simp [resolveRefs, List.filterMap_cons, hf] at hl ⊢
      exact hl

theorem runElems_ok_iff (doc : List OsmElem) : ∀ st : CState,
    exceptOk (runElems st doc) = true ↔ ∀ e ∈ doc, nodeParses e := by
  induction doc with
  | nil =>
    intro st
    refine iff_of_true rfl ?_
    intro e he
    exact absurd he (List.not_mem_nil e)
  | cons e rest ih =>
    intro st
    cases e with
    | node n =>
      cases hlon : n.lon with
      | none =>
        simp [runElems, stepElem, processNode, hlon, exceptOk_error,
              nodeParses]
      | some lon =>
        cases hlat : n.lat with
        | none =>
          simp [runElems, stepElem, processNode, hlon, hlat, exceptOk_error,
                nodeParses]
        | some lat =>
          simp [runElems, stepElem, processNode, hlon, hlat, ih, nodeParses]
    | way w =>
      simp [runElems, stepElem, ih, nodeParses]
    | rel r =>
      simp [runElems, stepElem, ih, nodeParses]

theorem compile_ok_iff (doc : List OsmElem) :
    exceptOk (compile doc) = true ↔ ∀ e ∈ doc, nodeParses e :=
  runElems_ok_iff doc initState

/-- Rendering of a coordinate value as a JSON number token (the embedding's
stand-in for Python's float repr; any fixed rendering suffices for the
properties proved here). -/
def numJson (q : Rat) : String := toString q

/-- JSON rendering of one coordinate pair. -/
def coordJson (c : Coord) : String :=
  "[" ++ numJson c.1 ++ ", " ++ numJson c.2 ++ "]"

/-- JSON rendering of a coordinate sequence. -/
def coordsJson (cs : List Coord) : String :=
  "[" ++ String.intercalate ", " (cs.map coordJson) ++ "]"

/-- JSON rendering of a ring list. -/
def ringsJson (rs : List (List Coord)) : String :=
  "[" ++ String.intercalate ", " (rs.map coordsJson) ++ "]"

/-- JSON rendering of a geometry object. -/
def geomJson : Geom → String
  | .point c =>
      "\x7b\"type\": \"Point\", \"coordinates\": " ++ coordJson c ++ "\x7d"
  | .lineString cs =>
      "\x7b\"type\": \"LineString\", \"coordinates\": " ++ coordsJson cs ++
        "\x7d"
  | .polygon rs =>
      "\x7b\"type\": \"Polygon\", \"coordinates\": " ++ ringsJson rs ++ "\x7d"
  | .multiPolygon ps =>
      "\x7b\"type\": \"MultiPolygon\", \"coordinates\": [" ++
        String.intercalate ", " (ps.map ringsJson) ++ "]\x7d"

/-- JSON rendering of one properties entry. -/
def propJson (p : String × String) : String :=
  "\"" ++ p.1 ++ "\": \"" ++ p.2 ++ "\""

/-- JSON rendering of a properties map, in insertion order. -/
def propsJson (ps : TagMap) : String :=
  "\x7b" ++ String.intercalate ", " (ps.map propJson) ++ "\x7d"

/-- JSON rendering of one feature. -/
def featureJson (f : GeoFeature) : String :=
  "\x7b\"type\": \"Feature\", \"geometry\": " ++ geomJson f.geometry ++
    ", \"properties\": " ++ propsJson f.properties ++ "\x7d"

/-- JSON rendering of the final feature collection, the document
`json.dump` writes. -/
def collectionJson (fs : List GeoFeature) : String :=
  "\x7b\"type\": \"FeatureCollection\", \"features\": [" ++
    String.intercalate ", " (fs.map featureJson) ++ "]\x7d"

/-- The whole `osm_to_geojson` call: compile the document and write the
serialized collection; `none` models "the pass raised and no output file was
written" (the output file is only opened after the loop finishes). -/
def osmToGeojson (doc : List OsmElem) : Option String :=
  match compile doc with
  | .ok st => some (collectionJson st.features)
  | .error _ => none

/-- C1: a tagged way's feature is a Polygon (with its coordinates wrapped as
the single ring `[coords]`) exactly when the resolved coordinate count
exceeds 1 and the first resolved coordinate equals the last, and a LineString
on the bare coordinate list otherwise; its properties are the scratch tag map
with `osm_id` set to the way's id. -/
theorem way_feature_polygon_iff (st : CState) (w : OsmWayElem)
    (h : (tagsOf w.children).isEmpty = false) :
    (processWay st w).features = st.features ++
      [⟨if (resolveRefs st.nodes (ndsOf w.children)).length > 1 ∧
            (resolveRefs st.nodes (ndsOf w.children)).head? =
              (resolveRefs st.nodes (ndsOf w.children)).getLast?
        then Geom.polygon [resolveRefs st.nodes (ndsOf w.children)]
        else Geom.lineString (resolveRefs st.nodes (ndsOf w.children)),
        propsWithId (tagsOf w.children) w.id⟩] := by
  simp [processWay, h, wayGeom_eq_ite]

/-- Closed instance of C1 at a concrete state and way (a closed ring of three
resolved refs, classified as Polygon; the hypothesis — a non-empty tag map —
holds by computation). -/
theorem way_feature_polygon_iff_witness :
    (processWay ⟨[("2", ((1 : Rat), (2 : Rat))), ("3", ((3 : Rat), (4 : Rat)))], [], []⟩
        ⟨"11", [.ndC "2", .ndC "3", .ndC "2", .tagC "building" "retail"]⟩).features =
      ([] : List GeoFeature) ++
      [⟨if (resolveRefs [("2", ((1 : Rat), (2 : Rat))), ("3", ((3 : Rat), (4 : Rat)))]
              (ndsOf [.ndC "2", .ndC "3", .ndC "2", .tagC "building" "retail"])).length > 1 ∧
            (resolveRefs [("2", ((1 : Rat), (2 : Rat))), ("3", ((3 : Rat), (4 : Rat)))]
              (ndsOf [.ndC "2", .ndC "3", .ndC "2", .tagC "building" "retail"])).head? =
              (resolveRefs [("2", ((1 : Rat), (2 : Rat))), ("3", ((3 : Rat), (4 : Rat)))]
                (ndsOf [.ndC "2", .ndC "3", .ndC "2", .tagC "building" "retail"])).getLast?
        then Geom.polygon [resolveRefs [("2", ((1 : Rat), (2 : Rat))), ("3", ((3 : Rat), (4 : Rat)))]
                (ndsOf [.ndC "2", .ndC "3", .ndC "2", .tagC "building" "retail"])]
        else Geom.lineString (resolveRefs [("2", ((1 : Rat), (2 : Rat))), ("3", ((3 : Rat), (4 : Rat)))]
                (ndsOf [.ndC "2", .ndC "3", .ndC "2", .tagC "building" "retail"])),
        propsWithId (tagsOf [.ndC "2", .ndC "3", .ndC "2", .tagC "building" "retail"]) "11"⟩] :=
  way_feature_polygon_iff
    ⟨[("2", ((1 : Rat), (2 : Rat))), ("3", ((3 : Rat), (4 : Rat)))], [], []⟩
    ⟨"11", [.ndC "2", .ndC "3", .ndC "2", .tagC "building" "retail"]⟩
    (by decide)

/-- C4: finalizing a parsable node stores its `(lon, lat)` pair in the node
registry under its id, leaves the way registry unchanged, and emits exactly
one Point feature (with `osm_id` added to the tags) precisely when the
scratch tag map is non-empty. -/
theorem node_finalization_spec (st : CState) (n : OsmNodeElem) (lon lat : Rat)
    (hlon : n.lon = some lon) (hlat : n.lat = some lat) :
    processNode st n = Except.ok
      { st with
          nodes := dictSet st.nodes n.id (lon, lat),
          features :=
            if (tagsOf n.children).isEmpty then st.features
            else st.features ++
              [⟨Geom.point (lon, lat), propsWithId (tagsOf n.children) n.id⟩] } := by
  simp only [processNode, hlon, hlat, finalizeNode]
  by_cases ht : (tagsOf n.children).isEmpty <;> simp [ht]

/-- Closed instance of C4 at a tagged node (both coordinate parses succeed by
computation; one Point feature is emitted). -/
theorem node_finalization_spec_witness :
    processNode initState ⟨"1", some ((5 : Rat)), some ((6 : Rat)), [.tagC "name" "x"]⟩ =
      Except.ok
        { initState with
            nodes := dictSet initState.nodes "1" (((5 : Rat)), ((6 : Rat))),
            features :=
              if (tagsOf [OsmChild.tagC "name" "x"]).isEmpty then initState.features
              else initState.features ++
                [⟨Geom.point (((5 : Rat)), ((6 : Rat))),
                  propsWithId (tagsOf [OsmChild.tagC "name" "x"]) "1"⟩] } :=
  node_finalization_spec initState ⟨"1", some ((5 : Rat)), some ((6 : Rat)), [.tagC "name" "x"]⟩
    ((5 : Rat)) ((6 : Rat)) rfl rfl

/-- C10: way finalization is total on short resolved coordinate lists: with at
most one resolved coordinate the closure check is skipped (short-circuited to
False), the way is still registered with its (possibly empty) coordinate
list, and a tagged way emits a LineString feature carrying that list. -/
theorem short_way_registered_linestring (st : CState) (w : OsmWayElem)
    (h : (resolveRefs st.nodes (ndsOf w.children)).length ≤ 1) :
    (processWay st w).ways =
      dictSet st.ways w.id
        ⟨resolveRefs st.nodes (ndsOf w.children), tagsOf w.children⟩ ∧
    (processWay st w).features =
      (if (tagsOf w.children).isEmpty then st.features
       else st.features ++
         [⟨Geom.lineString (resolveRefs st.nodes (ndsOf w.children)),
           propsWithId (tagsOf w.children) w.id⟩]) := by
  have hpoly : isPolygonCheck (resolveRefs st.nodes (ndsOf w.children)) = false := by
    unfold isPolygonCheck
    rw [if_neg (by omega)]
  constructor
  · by_cases ht : (tagsOf w.children).isEmpty <;> simp [processWay, ht]
  · by_cases ht : (tagsOf w.children).isEmpty <;>
      simp [processWay, wayGeom, ht, hpoly]

/-- Closed instance of C10: a tagged way whose only ref is unresolved (empty
node registry) is registered with an empty coordinate list and emits a
LineString feature with empty coordinates. -/
theorem short_way_registered_linestring_witness :
    (processWay initState ⟨"7", [.ndC "9", .tagC "highway" "path"]⟩).ways =
      dictSet initState.ways "7"
        ⟨resolveRefs initState.nodes (ndsOf [OsmChild.ndC "9", OsmChild.tagC "highway" "path"]),
         tagsOf [OsmChild.ndC "9", OsmChild.tagC "highway" "path"]⟩ ∧
    (processWay initState ⟨"7", [.ndC "9", .tagC "highway" "path"]⟩).features =
      (if (tagsOf [OsmChild.ndC "9", OsmChild.tagC "highway" "path"]).isEmpty then
        initState.features
       else initState.features ++
         [⟨Geom.lineString (resolveRefs initState.nodes
             (ndsOf [OsmChild.ndC "9", OsmChild.tagC "highway" "path"])),
           propsWithId (tagsOf [OsmChild.ndC "9", OsmChild.tagC "highway" "path"]) "7"⟩]) :=
  short_way_registered_linestring initState ⟨"7", [.ndC "9", .tagC "highway" "path"]⟩
    (by decide)

/-- C2: a relation typed multipolygon or boundary emits exactly one
MultiPolygon feature when at least one `outer` member resolves in the way
registry — its coordinates being the single-element array holding the
concatenation of the resolved outer rings followed by the resolved inner
rings, its properties the tag map with `osm_id` set to the relation id — and
emits nothing when no `outer` member resolves; the single ring set's length
is the number of resolved outer ways plus the number of resolved inner
ways. -/
theorem multipolygon_relation_spec (st : CState) (r : OsmRelElem)
    (h : dictGet? (tagsOf r.children) "type" = some "multipolygon" ∨
         dictGet? (tagsOf r.children) "type" = some "boundary") :
    (processRel st r).features =
      (if (outerRings st.ways (membersOf r.children)).isEmpty then st.features
       else st.features ++
         [⟨Geom.multiPolygon
             [outerRings st.ways (membersOf r.children) ++
              innerRings st.ways (membersOf r.children)],
           propsWithId (tagsOf r.children) r.id⟩]) ∧
    (outerRings st.ways (membersOf r.children) ++
      innerRings st.ways (membersOf r.children)).length =
      (outerRings st.ways (membersOf r.children)).length +
      (innerRings st.ways (membersOf r.children)).length := by
  constructor
  · unfold processRel
    rw [if_pos h]
    by_cases ho : (outerRings st.ways (membersOf r.children)).isEmpty <;>
      simp [ho]
  · exact List.length_append _ _

/-- Closed instance of C2: a multipolygon relation with one resolvable outer
way and one resolvable inner way (the type hypothesis holds by computation);
the resulting single feature holds both rings in one ring set. -/
theorem multipolygon_relation_spec_witness :
    (processRel
        ⟨[], [("11", ⟨[((0 : Rat), (0 : Rat)), ((1 : Rat), (1 : Rat))], []⟩),
              ("12", ⟨[((2 : Rat), (2 : Rat))], []⟩)], []⟩
        ⟨"100", [.memberC "way" "11" "outer", .memberC "way" "12" "inner",
                 .tagC "type" "multipolygon"]⟩).features =
      [⟨Geom.multiPolygon
          [[[((0 : Rat), (0 : Rat)), ((1 : Rat), (1 : Rat))],
            [((2 : Rat), (2 : Rat))]]],
        [("type", "multipolygon"), ("osm_id", "100")]⟩] := by
  have h := multipolygon_relation_spec
    ⟨[], [("11", ⟨[((0 : Rat), (0 : Rat)), ((1 : Rat), (1 : Rat))], []⟩),
          ("12", ⟨[((2 : Rat), (2 : Rat))], []⟩)], []⟩
    ⟨"100", [.memberC "way" "11" "outer", .memberC "way" "12" "inner",
             .tagC "type" "multipolygon"]⟩
    (Or.inl (by decide))
  rw [h.1]
  decide

/-- C3: a relation typed route or restriction handles each member
independently: a node member whose ref resolves yields a Point at the stored
coordinate, a way member whose ref resolves yields a LineString on the stored
coordinate sequence (never re-classified as a polygon), each with the
relation's tags plus `rel_role` (the member's role) and `osm_id` (the
relation's id); unresolved refs and other member types yield nothing. -/
theorem route_relation_members_spec (st : CState) (r : OsmRelElem)
    (h : dictGet? (tagsOf r.children) "type" = some "route" ∨
         dictGet? (tagsOf r.children) "type" = some "restriction") :
    (processRel st r).features = st.features ++
      (membersOf r.children).filterMap (fun m =>
        if m.mtype = "node" then
          (dictGet? st.nodes m.ref).map (fun c =>
            ⟨Geom.point c, memberProps (tagsOf r.children) m.role r.id⟩)
        else if m.mtype = "way" then
          (dictGet? st.ways m.ref).map (fun e =>
            ⟨Geom.lineString e.coords, memberProps (tagsOf r.children) m.role r.id⟩)
        else none) := by
  have hne : ¬ (dictGet? (tagsOf r.children) "type" = some "multipolygon" ∨
                dictGet? (tagsOf r.children) "type" = some "boundary") := by
    rcases h with h | h <;> rw [h] <;> simp
  unfold processRel
  rw [if_neg hne, if_pos h]
  rfl

/-- Closed instance of C3: a route relation with a resolvable node member, a
resolvable way member whose stored ring is closed (still a LineString), an
unresolved member and a relation-typed member (both dropped); the type
hypothesis holds by computation. -/
theorem route_relation_members_spec_witness :
    (processRel
        ⟨[("1", ((5 : Rat), (6 : Rat)))],
         [("10", ⟨[((0 : Rat), (0 : Rat)), ((1 : Rat), (1 : Rat)),
                   ((0 : Rat), (0 : Rat))], []⟩)], []⟩
        ⟨"300", [.memberC "way" "10" "track", .memberC "node" "1" "stop",
                 .memberC "node" "99" "stop", .memberC "relation" "10" "sub",
                 .tagC "type" "route"]⟩).features =
      [⟨Geom.lineString [((0 : Rat), (0 : Rat)), ((1 : Rat), (1 : Rat)),
          ((0 : Rat), (0 : Rat))],
        [("type", "route"), ("rel_role", "track"), ("osm_id", "300")]⟩,
       ⟨Geom.point ((5 : Rat), (6 : Rat)),
        [("type", "route"), ("rel_role", "stop"), ("osm_id", "300")]⟩] := by
  have h := route_relation_members_spec
    ⟨[("1", ((5 : Rat), (6 : Rat)))],
     [("10", ⟨[((0 : Rat), (0 : Rat)), ((1 : Rat), (1 : Rat)),
               ((0 : Rat), (0 : Rat))], []⟩)], []⟩
    ⟨"300", [.memberC "way" "10" "track", .memberC "node" "1" "stop",
             .memberC "node" "99" "stop", .memberC "relation" "10" "sub",
             .tagC "type" "route"]⟩
    (Or.inl (by decide))
  rw [h]
  decide

/-- C9: the reserved property keys are merged after the tag map, so they
override identically-named source tags: `osm_id` always looks up to the
producing primitive's id, and for member-derived features `rel_role` always
looks up to the member's role, whatever the tag map contains. -/
theorem reserved_property_keys_override (tags : TagMap) (id role : String) :
    dictGet? (propsWithId tags id) "osm_id" = some id ∧
    dictGet? (memberProps tags role id) "osm_id" = some id ∧
    dictGet? (memberProps tags role id) "rel_role" = some role := by
  refine ⟨dictGet?_dictSet_self tags "osm_id" id,
          dictGet?_dictSet_self _ "osm_id" id, ?_⟩
  unfold memberProps
  rw [dictGet?_dictSet_ne _ _ _ _ (by decide)]
  exact dictGet?_dictSet_self tags "rel_role" role

/-- C6: unresolved references never abort the pass — a document whose nodes
all parse compiles successfully whatever its refs — and a way's ref list is
resolved by dropping exactly the refs absent from the node registry while
keeping the surviving refs in their original order, so the only effect is a
reduced count (with no reduction when every ref resolves). -/
theorem unresolved_refs_are_silent (nodesReg : List (String × Coord))
    (refs : List String) (doc : List OsmElem)
    (hdoc : ∀ e ∈ doc, nodeParses e) :
    exceptOk (compile doc) = true ∧
    resolveRefs nodesReg refs =
      (refs.filter (fun r => (dictGet? nodesReg r).isSome)).filterMap
        (fun r => dictGet? nodesReg r) ∧
    (resolveRefs nodesReg refs).length ≤ refs.length ∧
    ((∀ r ∈ refs, (dictGet? nodesReg r).isSome = true) →
      (resolveRefs nodesReg refs).length = refs.length) :=
  ⟨(compile_ok_iff doc).mpr hdoc,
   filterMap_eq_filter_filterMap (fun r => dictGet? nodesReg r) refs,
   List.length_filterMap_le (fun r => dictGet? nodesReg r) refs,
   resolveRefs_length_all_some nodesReg refs⟩

/-- Closed instance of C6: a document holding one way with an unresolved ref
compiles successfully, and resolving `["9", "2"]` against a registry holding
only `"2"` drops `"9"`, keeps `"2"`, and shortens the list. -/
theorem unresolved_refs_are_silent_witness :
    exceptOk (compile [OsmElem.way ⟨"10", [.ndC "9", .tagC "highway" "primary"]⟩]) = true ∧
    resolveRefs [("2", ((1 : Rat), (2 : Rat)))] ["9", "2"] =
      ((["9", "2"] : List String).filter
        (fun r => (dictGet? [("2", ((1 : Rat), (2 : Rat)))] r).isSome)).filterMap
        (fun r => dictGet? [("2", ((1 : Rat), (2 : Rat)))] r) ∧
    (resolveRefs [("2", ((1 : Rat), (2 : Rat)))] ["9", "2"]).length ≤
      (["9", "2"] : List String).length := by
  have h := unresolved_refs_are_silent [("2", ((1 : Rat), (2 : Rat)))] ["9", "2"]
    [OsmElem.way ⟨"10", [.ndC "9", .tagC "highway" "primary"]⟩] (by decide)
  exact ⟨h.1, h.2.1, h.2.2.1⟩

/-- C7: a node whose longitude or latitude does not parse as a float aborts
the whole compilation: the pass stops with the raised error, and no output is
produced (the output file is only written after a completed pass). -/
theorem unparsable_coordinate_aborts (doc : List OsmElem)
    (h : ∃ e ∈ doc, ¬ nodeParses e) :
    osmToGeojson doc = none := by
  have hok : ¬ exceptOk (compile doc) = true := by
    intro hk
    obtain ⟨e, he, hne⟩ := h
    exact hne ((compile_ok_iff doc).mp hk e he)
  unfold osmToGeojson
  cases hc : compile doc with
  | ok st => exact absurd (by rw [hc]; rfl) hok
  | error msg => rfl

/-- Closed instance of C7: a document whose only node has an unparsable
longitude produces no output. -/
theorem unparsable_coordinate_aborts_witness :
    osmToGeojson [OsmElem.node ⟨"1", none, some ((1 : Rat)), []⟩,
                  OsmElem.way ⟨"10", [.ndC "1"]⟩] = none :=
  unparsable_coordinate_aborts
    [OsmElem.node ⟨"1", none, some ((1 : Rat)), []⟩,
     OsmElem.way ⟨"10", [.ndC "1"]⟩]
    ⟨OsmElem.node ⟨"1", none, some ((1 : Rat)), []⟩, by decide, by decide⟩

/-- C8: the compiler is a pure function of the input document — nothing in
the pass reads ambient state — so compiling the same document twice yields
the same result state and the same serialized output bytes. -/
theorem compilation_deterministic (doc : List OsmElem) :
    compile doc = compile doc ∧ osmToGeojson doc = osmToGeojson doc :=
  ⟨rfl, rfl⟩

/-- Coordinate of fixture node 1 (`lon="-117.2110"`, `lat="32.8715"`). -/
def fxC1 : Coord := (mkRat (-1172110) 10000, mkRat 328715 10000)

/-- Coordinate of fixture node 2 (`lon="-117.2120"`, `lat="32.8720"`). -/
def fxC2 : Coord := (mkRat (-1172120) 10000, mkRat 328720 10000)

/-- Coordinate of fixture node 3 (`lon="-117.2120"`, `lat="32.8730"`). -/
def fxC3 : Coord := (mkRat (-1172120) 10000, mkRat 328730 10000)

/-- Coordinate of fixture node 4 (`lon="-117.2110"`, `lat="32.8730"`). -/
def fxC4 : Coord := (mkRat (-1172110) 10000, mkRat 328730 10000)

/-- Coordinate of fixture node 5 (`lon="-117.2115"`, `lat="32.8725"`). -/
def fxC5 : Coord := (mkRat (-1172115) 10000, mkRat 328725 10000)

/-- The fixture coordinates are written with `mkRat` (which the kernel can
evaluate); this lemma ties each one to the decimal literal of the XML
attribute it models. -/
theorem fixture_coords_eq_decimals :
    fxC1 = (-117.2110, 32.8715) ∧ fxC2 = (-117.2120, 32.8720) ∧
    fxC3 = (-117.2120, 32.8730) ∧ fxC4 = (-117.2110, 32.8730) ∧
    fxC5 = (-117.2115, 32.8725) := by
  unfold fxC1 fxC2 fxC3 fxC4 fxC5
  norm_num [Rat.mkRat_eq_div, Prod.ext_iff]

/-- The reference test fixture (`TestOSMEngine.test_osm_to_geojson`): nodes
1-5 (only node 1 tagged), ways 10-12 (way 12 carries no tags), and relations
100 (multipolygon), 200 (boundary), 300 (route) and 400 (restriction), with
each primitive's children in document order. -/
def fixtureDoc : List OsmElem :=
  [ .node ⟨"1", some fxC1.1, some fxC1.2, [.tagC "name" "UTC Transit Center"]⟩,
    .node ⟨"2", some fxC2.1, some fxC2.2, []⟩,
    .node ⟨"3", some fxC3.1, some fxC3.2, []⟩,
    .node ⟨"4", some fxC4.1, some fxC4.2, []⟩,
    .node ⟨"5", some fxC5.1, some fxC5.2, []⟩,
    .way ⟨"10", [.ndC "2", .ndC "3", .tagC "highway" "primary", .tagC "name" "Genesee Ave"]⟩,
    .way ⟨"11", [.ndC "1", .ndC "2", .ndC "3", .ndC "4", .ndC "1", .tagC "building" "retail"]⟩,
    .way ⟨"12", [.ndC "5", .ndC "2", .ndC "3", .ndC "5"]⟩,
    .rel ⟨"100", [.memberC "way" "11" "outer", .memberC "way" "12" "inner",
                  .tagC "type" "multipolygon", .tagC "amenity" "marketplace"]⟩,
    .rel ⟨"200", [.memberC "way" "11" "outer", .tagC "type" "boundary",
                  .tagC "boundary" "parking", .tagC "name" "UTC Parking South"]⟩,
    .rel ⟨"300", [.memberC "way" "10" "track", .memberC "node" "1" "stop",
                  .tagC "type" "route", .tagC "route" "bus", .tagC "ref" "201"]⟩,
    .rel ⟨"400", [.memberC "way" "10" "from", .memberC "node" "5" "via",
                  .tagC "type" "restriction", .tagC "restriction" "no_left_turn"]⟩ ]

/-- C5 counterexample: compiling the reference fixture succeeds but yields 9
features, not 10, and no feature carries `osm_id = "12"` — way 12 has no
tags, so it emits no feature (in particular no Polygon). -/
theorem fixture_not_ten_features :
    exceptOk (compile fixtureDoc) = true ∧
    (compiledFeatures fixtureDoc).length = 9 ∧
    (compiledFeatures fixtureDoc).length ≠ 10 ∧
    (compiledFeatures fixtureDoc).all
      (fun f => decide (dictGet? f.properties "osm_id" ≠ some "12")) = true := by
  decide

/-- C5 amended: the fixture compiles to exactly these 9 features, in document
order: node 1's Point; way 10's LineString; way 11's Polygon (way 12,
untagged, emits nothing though it is registered and reused); relation 100's
MultiPolygon whose single ring set has 2 rings; relation 200's MultiPolygon
area feature; relation 300's LineString (`rel_role = track`) and Point
(`rel_role = stop`, with tag `ref = 201`); relation 400's LineString
(`rel_role = from`) and Point (`rel_role = via`). -/
theorem fixture_compiles_to_nine_features :
    compiledFeatures fixtureDoc =
      [⟨Geom.point fxC1,
        [("name", "UTC Transit Center"), ("osm_id", "1")]⟩,
       ⟨Geom.lineString [fxC2, fxC3],
        [("highway", "primary"), ("name", "Genesee Ave"), ("osm_id", "10")]⟩,
       ⟨Geom.polygon [[fxC1, fxC2, fxC3, fxC4, fxC1]],
        [("building", "retail"), ("osm_id", "11")]⟩,
       ⟨Geom.multiPolygon [[[fxC1, fxC2, fxC3, fxC4, fxC1],
                            [fxC5, fxC2, fxC3, fxC5]]],
        [("type", "multipolygon"), ("amenity", "marketplace"), ("osm_id", "100")]⟩,
       ⟨Geom.multiPolygon [[[fxC1, fxC2, fxC3, fxC4, fxC1]]],
        [("type", "boundary"), ("boundary", "parking"),
         ("name", "UTC Parking South"), ("osm_id", "200")]⟩,
       ⟨Geom.lineString [fxC2, fxC3],
        [("type", "route"), ("route", "bus"), ("ref", "201"),
         ("rel_role", "track"), ("osm_id", "300")]⟩,
       ⟨Geom.point fxC1,
        [("type", "route"), ("route", "bus"), ("ref", "201"),
         ("rel_role", "stop"), ("osm_id", "300")]⟩,
       ⟨Geom.lineString [fxC2, fxC3],
        [("type", "restriction"), ("restriction", "no_left_turn"),
         ("rel_role", "from"), ("osm_id", "400")]⟩,
       ⟨Geom.point fxC5,
        [("type", "restriction"), ("restriction", "no_left_turn"),
         ("rel_role", "via"), ("osm_id", "400")]⟩] := by
  decide
